import Mathlib

/-!
Verification of the Vi normal-mode command interpreter
(src/edit_mode/vi/command.rs): keystroke parsing, standalone dispatch,
and motion-combined dispatch with its session-state effects.
-/

set_option maxHeartbeats 1000000

/-- Modelled from the spec: the external UI-event vocabulary (crate type
`ReedlineEvent`, defined outside this slice).  Only `Repaint` and
`SearchHistory` are produced here; `Other` stands for the remaining,
opaque variants a replayed `previous` event may carry. -/
inductive ReedlineEvent where
  | Repaint
  | SearchHistory
  | Other (code : Nat)
deriving DecidableEq, Repr

/-- Modelled from the spec: the external buffer-mutation vocabulary (crate
type `EditCommand`, defined outside this slice), restricted to the
variants this interpreter emits. -/
inductive EditCommand where
  | CutToLineEnd
  | CutCurrentLine
  | CutWordRightToNext
  | CutBigWordRightToNext
  | CutWordRight
  | CutBigWordRight
  | CutWordLeft
  | CutBigWordLeft
  | CutRightUntil (c : Char)
  | CutRightBefore (c : Char)
  | CutLeftUntil (c : Char)
  | CutLeftBefore (c : Char)
  | CutFromLineStart
  | Backspace
  | Delete
  | ClearToLineEnd
  | MoveToStart (select : Bool)
  | MoveToLineStart (select : Bool)
  | MoveToLineEnd (select : Bool)
  | MoveRight (select : Bool)
  | PasteCutBufferAfter
  | PasteCutBufferBefore
  | Undo
  | CutChar
  | ReplaceChar (c : Char)
  | SwitchcaseChar
deriving DecidableEq, Repr

/-- Modelled from the spec: the dispatcher's instruction type
(`ReedlineOption` from the vi parser module, outside src/): an edit
instruction, a UI event, or the `Incomplete` marker. -/
inductive ReedlineOption where
  | Edit (cmd : EditCommand)
  | Event (event : ReedlineEvent)
  | Incomplete
deriving DecidableEq, Repr

/-- Modelled from the spec: `CharSearchMemory` (crate type `ViCharSearch`
in the motion module, outside src/): the last character-search target,
one of `ToRight, TillRight, ToLeft, TillLeft`, each carrying the target
character. -/
inductive ViCharSearch where
  | ToRight (c : Char)
  | TillRight (c : Char)
  | ToLeft (c : Char)
  | TillLeft (c : Char)
deriving DecidableEq, Repr

/-- Modelled from the spec: `to_cut()` maps the remembered search to the
matching buffer-cut primitive (cut-right-until / cut-right-before /
cut-left-until / cut-left-before, carrying the target character). -/
def ViCharSearch.to_cut : ViCharSearch → EditCommand
  | ViCharSearch.ToRight c => EditCommand.CutRightUntil c
  | ViCharSearch.TillRight c => EditCommand.CutRightBefore c
  | ViCharSearch.ToLeft c => EditCommand.CutLeftUntil c
  | ViCharSearch.TillLeft c => EditCommand.CutLeftBefore c

/-- Modelled from the spec: `reverse()` mirrors the direction of the
remembered search and keeps the target character. -/
def ViCharSearch.reverse : ViCharSearch → ViCharSearch
  | ViCharSearch.ToRight c => ViCharSearch.ToLeft c
  | ViCharSearch.TillRight c => ViCharSearch.TillLeft c
  | ViCharSearch.ToLeft c => ViCharSearch.ToRight c
  | ViCharSearch.TillLeft c => ViCharSearch.TillRight c

/-- Modelled from the spec: the external `Motion` vocabulary (motion
module, outside src/), exactly the closed set consumed exhaustively by
`Command::to_reedline_with_motion`. -/
inductive Motion where
  | End
  | Line
  | NextWord
  | NextBigWord
  | NextWordEnd
  | NextBigWordEnd
  | PreviousWord
  | PreviousBigWord
  | RightUntil (c : Char)
  | RightBefore (c : Char)
  | LeftUntil (c : Char)
  | LeftBefore (c : Char)
  | Start
  | Left
  | Right
  | Up
  | Down
  | ReplayCharSearch
  | ReverseCharSearch
deriving DecidableEq, Repr

/-- Modelled from the spec: the session state (`Vi`, outside src/),
restricted to the two fields this interpreter consumes: the last
fully-resolved event for replay, and the last character-search memory. -/
structure Vi where
  previous : Option ReedlineEvent
  last_char_search : Option ViCharSearch
deriving DecidableEq, Repr

/-- The normal-mode `Command` set, from src/edit_mode/vi/command.rs. -/
inductive Command where
  | Incomplete
  | Delete
  | DeleteChar
  | ReplaceChar (c : Char)
  | SubstituteCharWithInsert
  | PasteAfter
  | PasteBefore
  | EnterViAppend
  | EnterViInsert
  | Undo
  | ChangeToLineEnd
  | DeleteToEnd
  | AppendToEnd
  | PrependToStart
  | RewriteCurrentLine
  | Change
  | HistorySearch
  | Switchcase
  | RepeatLastAction
deriving DecidableEq, Repr

/-- Embedding of `parse_command` (src/edit_mode/vi/command.rs).  The
peekable character iterator is a list; the returned list is the
unconsumed remainder of the input. -/
def parse_command : List Char → Option Command × List Char
  | [] => (none, [])
  | c :: rest =>
    match c with
    | 'd' => (some Command.Delete, rest)
    | 'p' => (some Command.PasteAfter, rest)
    | 'P' => (some Command.PasteBefore, rest)
    | 'i' => (some Command.EnterViInsert, rest)
    | 'a' => (some Command.EnterViAppend, rest)
    | 'u' => (some Command.Undo, rest)
    | 'c' => (some Command.Change, rest)
    | 'x' => (some Command.DeleteChar, rest)
    | 'r' =>
      match rest with
      | op :: rest2 => (some (Command.ReplaceChar op), rest2)
      | [] => (some Command.Incomplete, [])
    | 's' => (some Command.SubstituteCharWithInsert, rest)
    | '?' => (some Command.HistorySearch, rest)
    | 'C' => (some Command.ChangeToLineEnd, rest)
    | 'D' => (some Command.DeleteToEnd, rest)
    | 'I' => (some Command.PrependToStart, rest)
    | 'A' => (some Command.AppendToEnd, rest)
    | 'S' => (some Command.RewriteCurrentLine, rest)
    | '~' => (some Command.Switchcase, rest)
    | '.' => (some Command.RepeatLastAction, rest)
    | _ => (none, c :: rest)

/-- Embedding of `Command::whole_line_char`. -/
def Command.whole_line_char : Command → Option Char
  | Command.Delete => some 'd'
  | Command.Change => some 'c'
  | _ => none

/-- Embedding of `Command::requires_motion`. -/
def Command.requires_motion : Command → Bool
  | Command.Delete => true
  | Command.Change => true
  | _ => false

/-- Embedding of `Command::to_reedline` (standalone dispatch).  The Rust
function takes `&mut Vi`; the embedding threads the state explicitly and
returns the (possibly updated) state alongside the instruction list. -/
def Command.to_reedline (cmd : Command) (vi_state : Vi) :
    List ReedlineOption × Vi :=
  match cmd with
  | Command.EnterViInsert =>
    ([ReedlineOption.Event ReedlineEvent.Repaint], vi_state)
  | Command.EnterViAppend =>
    ([ReedlineOption.Edit (EditCommand.MoveRight false)], vi_state)
  | Command.PasteAfter =>
    ([ReedlineOption.Edit EditCommand.PasteCutBufferAfter], vi_state)
  | Command.PasteBefore =>
    ([ReedlineOption.Edit EditCommand.PasteCutBufferBefore], vi_state)
  | Command.Undo => ([ReedlineOption.Edit EditCommand.Undo], vi_state)
  | Command.ChangeToLineEnd =>
    ([ReedlineOption.Edit EditCommand.ClearToLineEnd], vi_state)
  | Command.DeleteToEnd =>
    ([ReedlineOption.Edit EditCommand.CutToLineEnd], vi_state)
  | Command.AppendToEnd =>
    ([ReedlineOption.Edit (EditCommand.MoveToLineEnd false)], vi_state)
  | Command.PrependToStart =>
    ([ReedlineOption.Edit (EditCommand.MoveToLineStart false)], vi_state)
  | Command.RewriteCurrentLine =>
    ([ReedlineOption.Edit EditCommand.CutCurrentLine], vi_state)
  | Command.DeleteChar => ([ReedlineOption.Edit EditCommand.CutChar], vi_state)
  | Command.ReplaceChar c =>
    ([ReedlineOption.Edit (EditCommand.ReplaceChar c)], vi_state)
  | Command.SubstituteCharWithInsert =>
    ([ReedlineOption.Edit EditCommand.CutChar], vi_state)
  | Command.HistorySearch =>
    ([ReedlineOption.Event ReedlineEvent.SearchHistory], vi_state)
  | Command.Switchcase =>
    ([ReedlineOption.Edit EditCommand.SwitchcaseChar], vi_state)
  | Command.Delete => ([ReedlineOption.Incomplete], vi_state)
  | Command.Change => ([ReedlineOption.Incomplete], vi_state)
  | Command.Incomplete => ([ReedlineOption.Incomplete], vi_state)
  | Command.RepeatLastAction =>
    match vi_state.previous with
    | some event => ([ReedlineOption.Event event], vi_state)
    | none => ([], vi_state)

/-- Embedding of `Command::to_reedline_with_motion` (motion-combined
dispatch).  `None` in the first component is the "unsupported
combination" outcome; the second component is the session state after
the call (`&mut Vi` in Rust, threaded explicitly here). -/
def Command.to_reedline_with_motion (cmd : Command) (motion : Motion)
    (vi_state : Vi) : Option (List ReedlineOption) × Vi :=
  match cmd with
  | Command.Delete =>
    match motion with
    | Motion.End => (some [ReedlineOption.Edit EditCommand.CutToLineEnd], vi_state)
    | Motion.Line => (some [ReedlineOption.Edit EditCommand.CutCurrentLine], vi_state)
    | Motion.NextWord =>
      (some [ReedlineOption.Edit EditCommand.CutWordRightToNext], vi_state)
    | Motion.NextBigWord =>
      (some [ReedlineOption.Edit EditCommand.CutBigWordRightToNext], vi_state)
    | Motion.NextWordEnd =>
      (some [ReedlineOption.Edit EditCommand.CutWordRight], vi_state)
    | Motion.NextBigWordEnd =>
      (some [ReedlineOption.Edit EditCommand.CutBigWordRight], vi_state)
    | Motion.PreviousWord =>
      (some [ReedlineOption.Edit EditCommand.CutWordLeft], vi_state)
    | Motion.PreviousBigWord =>
      (some [ReedlineOption.Edit EditCommand.CutBigWordLeft], vi_state)
    | Motion.RightUntil c =>
      (some [ReedlineOption.Edit (EditCommand.CutRightUntil c)],
       { vi_state with last_char_search := some (ViCharSearch.ToRight c) })
    | Motion.RightBefore c =>
      (some [ReedlineOption.Edit (EditCommand.CutRightBefore c)],
       { vi_state with last_char_search := some (ViCharSearch.TillRight c) })
    | Motion.LeftUntil c =>
      (some [ReedlineOption.Edit (EditCommand.CutLeftUntil c)],
       { vi_state with last_char_search := some (ViCharSearch.ToLeft c) })
    | Motion.LeftBefore c =>
      (some [ReedlineOption.Edit (EditCommand.CutLeftBefore c)],
       { vi_state with last_char_search := some (ViCharSearch.TillLeft c) })
    | Motion.Start =>
      (some [ReedlineOption.Edit EditCommand.CutFromLineStart], vi_state)
    | Motion.Left => (some [ReedlineOption.Edit EditCommand.Backspace], vi_state)
    | Motion.Right => (some [ReedlineOption.Edit EditCommand.Delete], vi_state)
    | Motion.Up => (none, vi_state)
    | Motion.Down => (none, vi_state)
    | Motion.ReplayCharSearch =>
      (vi_state.last_char_search.map
        (fun char_search => [ReedlineOption.Edit char_search.to_cut]), vi_state)
    | Motion.ReverseCharSearch =>
      (vi_state.last_char_search.map
        (fun char_search => [ReedlineOption.Edit char_search.reverse.to_cut]),
       vi_state)
  | Command.Change =>
    let inner : Option (List ReedlineOption) × Vi :=
      match motion with
      | Motion.End => (some [ReedlineOption.Edit EditCommand.ClearToLineEnd], vi_state)
      | Motion.Line =>
        (some [ReedlineOption.Edit (EditCommand.MoveToStart false),
               ReedlineOption.Edit EditCommand.ClearToLineEnd], vi_state)
      | Motion.NextWord =>
        (some [ReedlineOption.Edit EditCommand.CutWordRight], vi_state)
      | Motion.NextBigWord =>
        (some [ReedlineOption.Edit EditCommand.CutBigWordRight], vi_state)
      | Motion.NextWordEnd =>
        (some [ReedlineOption.Edit EditCommand.CutWordRight], vi_state)
      | Motion.NextBigWordEnd =>
        (some [ReedlineOption.Edit EditCommand.CutBigWordRight], vi_state)
      | Motion.PreviousWord =>
        (some [ReedlineOption.Edit EditCommand.CutWordLeft], vi_state)
      | Motion.PreviousBigWord =>
        (some [ReedlineOption.Edit EditCommand.CutBigWordLeft], vi_state)
      | Motion.RightUntil c =>
        (some [ReedlineOption.Edit (EditCommand.CutRightUntil c)],
         { vi_state with last_char_search := some (ViCharSearch.ToRight c) })
      | Motion.RightBefore c =>
        (some [ReedlineOption.Edit (EditCommand.CutRightBefore c)],
         { vi_state with last_char_search := some (ViCharSearch.TillRight c) })
      | Motion.LeftUntil c =>
        (some [ReedlineOption.Edit (EditCommand.CutLeftUntil c)],
         { vi_state with last_char_search := some (ViCharSearch.ToLeft c) })
      | Motion.LeftBefore c =>
        (some [ReedlineOption.Edit (EditCommand.CutLeftBefore c)],
         { vi_state with last_char_search := some (ViCharSearch.TillLeft c) })
      | Motion.Start =>
        (some [ReedlineOption.Edit EditCommand.CutFromLineStart], vi_state)
      | Motion.Left => (some [ReedlineOption.Edit EditCommand.Backspace], vi_state)
      | Motion.Right => (some [ReedlineOption.Edit EditCommand.Delete], vi_state)
      | Motion.Up => (none, vi_state)
      | Motion.Down => (none, vi_state)
      | Motion.ReplayCharSearch =>
        (vi_state.last_char_search.map
          (fun char_search => [ReedlineOption.Edit char_search.to_cut]), vi_state)
      | Motion.ReverseCharSearch =>
        (vi_state.last_char_search.map
          (fun char_search => [ReedlineOption.Edit char_search.reverse.to_cut]),
         vi_state)
    (inner.1.map
      (fun v => v ++ [ReedlineOption.Event ReedlineEvent.Repaint]), inner.2)
  | _ => (none, vi_state)

/-- Helper: whether a motion is one of the four character-search motions
(the only motions whose dispatch writes `last_char_search`). -/
def Motion.is_char_search : Motion → Bool
  | Motion.RightUntil _ => true
  | Motion.RightBefore _ => true
  | Motion.LeftUntil _ => true
  | Motion.LeftBefore _ => true
  | _ => false

/-- Helper: the single-character command tokens of `parse_command` and the
command each one yields ('r' is excluded: it consumes an operand too). -/
def single_char_table : List (Char × Command) :=
  [('d', Command.Delete), ('p', Command.PasteAfter), ('P', Command.PasteBefore),
   ('i', Command.EnterViInsert), ('a', Command.EnterViAppend),
   ('u', Command.Undo), ('c', Command.Change), ('x', Command.DeleteChar),
   ('s', Command.SubstituteCharWithInsert), ('?', Command.HistorySearch),
   ('C', Command.ChangeToLineEnd), ('D', Command.DeleteToEnd),
   ('I', Command.PrependToStart), ('A', Command.AppendToEnd),
   ('S', Command.RewriteCurrentLine), ('~', Command.Switchcase),
   ('.', Command.RepeatLastAction)]

/-- Helper: every character `parse_command` recognizes (the table tokens
plus the replace trigger 'r'). -/
def command_trigger_chars : List Char :=
  ['d', 'p', 'P', 'i', 'a', 'u', 'c', 'x', 'r', 's', '?',
   'C', 'D', 'I', 'A', 'S', '~', '.']

/-- Helper: standalone dispatch returns the session state unchanged. -/
lemma to_reedline_frame (cmd : Command) (s : Vi) : (cmd.to_reedline s).2 = s := by
  obtain ⟨prev, lcs⟩ := s
  cases cmd <;> try rfl
  cases prev <;> rfl

/-- Helper: motion-combined dispatch with a non-character-search motion
returns the session state unchanged. -/
lemma with_motion_frame (cmd : Command) (m : Motion) (s : Vi)
    (h : m.is_char_search = false) :
    (cmd.to_reedline_with_motion m s).2 = s := by
  cases cmd <;> try rfl
  all_goals cases m <;> first
    | rfl
    | simp [Motion.is_char_search] at h

/-- Helper: motion-combined dispatch either leaves `last_char_search`
unchanged or sets it to some remembered search; it never clears it. -/
lemma with_motion_last_cs (cmd : Command) (m : Motion) (s : Vi) :
    ((cmd.to_reedline_with_motion m s).2).last_char_search = s.last_char_search ∨
    ∃ mem, ((cmd.to_reedline_with_motion m s).2).last_char_search = some mem := by
  cases cmd <;> try exact Or.inl rfl
  all_goals cases m <;> first
    | exact Or.inl rfl
    | exact Or.inr ⟨_, rfl⟩

/-- Helper: if motion-combined dispatch changed `last_char_search` at
all, the command was Delete or Change and the motion was one of the four
character-search motions — no other dispatch writes it. -/
lemma with_motion_only_writers (cmd : Command) (m : Motion) (t : Vi)
    (h : ((cmd.to_reedline_with_motion m t).2).last_char_search
      ≠ t.last_char_search) :
    (cmd = Command.Delete ∨ cmd = Command.Change) ∧
      m.is_char_search = true := by
  cases cmd <;> try exact absurd rfl h
  all_goals cases m <;> first
    | exact absurd rfl h
    | exact ⟨Or.inl rfl, rfl⟩
    | exact ⟨Or.inr rfl, rfl⟩

/-- C1: the Delete and Change motion tables agree on shared motions and
diverge exactly at End, Line, and the word-end motions; Change appends a
repaint to every list. -/
theorem delete_change_motion_tables (s : Vi) :
    (Command.Delete.to_reedline_with_motion Motion.End s).1
      = some [ReedlineOption.Edit EditCommand.CutToLineEnd] ∧
    (Command.Change.to_reedline_with_motion Motion.End s).1
      = some [ReedlineOption.Edit EditCommand.ClearToLineEnd,
              ReedlineOption.Event ReedlineEvent.Repaint] ∧
    (Command.Delete.to_reedline_with_motion Motion.Line s).1
      = some [ReedlineOption.Edit EditCommand.CutCurrentLine] ∧
    (Command.Change.to_reedline_with_motion Motion.Line s).1
      = some [ReedlineOption.Edit (EditCommand.MoveToStart false),
              ReedlineOption.Edit EditCommand.ClearToLineEnd,
              ReedlineOption.Event ReedlineEvent.Repaint] ∧
    (Command.Delete.to_reedline_with_motion Motion.NextWord s).1
      = some [ReedlineOption.Edit EditCommand.CutWordRightToNext] ∧
    (Command.Delete.to_reedline_with_motion Motion.NextWordEnd s).1
      = some [ReedlineOption.Edit EditCommand.CutWordRight] ∧
    (Command.Change.to_reedline_with_motion Motion.NextWord s).1
      = some [ReedlineOption.Edit EditCommand.CutWordRight,
              ReedlineOption.Event ReedlineEvent.Repaint] ∧
    (Command.Change.to_reedline_with_motion Motion.NextWordEnd s).1
      = some [ReedlineOption.Edit EditCommand.CutWordRight,
              ReedlineOption.Event ReedlineEvent.Repaint] ∧
    (Command.Delete.to_reedline_with_motion Motion.PreviousWord s).1
      = some [ReedlineOption.Edit EditCommand.CutWordLeft] ∧
    (Command.Change.to_reedline_with_motion Motion.PreviousWord s).1
      = some [ReedlineOption.Edit EditCommand.CutWordLeft,
              ReedlineOption.Event ReedlineEvent.Repaint] ∧
    (Command.Delete.to_reedline_with_motion Motion.NextBigWord s).1
      = some [ReedlineOption.Edit EditCommand.CutBigWordRightToNext] ∧
    (Command.Delete.to_reedline_with_motion Motion.NextBigWordEnd s).1
      = some [ReedlineOption.Edit EditCommand.CutBigWordRight] ∧
    (Command.Change.to_reedline_with_motion Motion.NextBigWord s).1
      = some [ReedlineOption.Edit EditCommand.CutBigWordRight,
              ReedlineOption.Event ReedlineEvent.Repaint] ∧
    (Command.Change.to_reedline_with_motion Motion.NextBigWordEnd s).1
      = some [ReedlineOption.Edit EditCommand.CutBigWordRight,
              ReedlineOption.Event ReedlineEvent.Repaint] ∧
    (Command.Delete.to_reedline_with_motion Motion.PreviousBigWord s).1
      = some [ReedlineOption.Edit EditCommand.CutBigWordLeft] ∧
    (Command.Change.to_reedline_with_motion Motion.PreviousBigWord s).1
      = some [ReedlineOption.Edit EditCommand.CutBigWordLeft,
              ReedlineOption.Event ReedlineEvent.Repaint] ∧
    (Command.Delete.to_reedline_with_motion Motion.Start s).1
      = some [ReedlineOption.Edit EditCommand.CutFromLineStart] ∧
    (Command.Change.to_reedline_with_motion Motion.Start s).1
      = some [ReedlineOption.Edit EditCommand.CutFromLineStart,
              ReedlineOption.Event ReedlineEvent.Repaint] ∧
    (Command.Delete.to_reedline_with_motion Motion.Left s).1
      = some [ReedlineOption.Edit EditCommand.Backspace] ∧
    (Command.Change.to_reedline_with_motion Motion.Left s).1
      = some [ReedlineOption.Edit EditCommand.Backspace,
              ReedlineOption.Event ReedlineEvent.Repaint] ∧
    (Command.Delete.to_reedline_with_motion Motion.Right s).1
      = some [ReedlineOption.Edit EditCommand.Delete] ∧
    (Command.Change.to_reedline_with_motion Motion.Right s).1
      = some [ReedlineOption.Edit EditCommand.Delete,
              ReedlineOption.Event ReedlineEvent.Repaint] :=
  ⟨rfl, rfl, rfl, rfl, rfl, rfl, rfl, rfl, rfl, rfl, rfl,
   rfl, rfl, rfl, rfl, rfl, rfl, rfl, rfl, rfl, rfl, rfl⟩

/-- C6: parsing ['r'] alone yields `Incomplete` consuming only 'r';
parsing 'r' followed by any operand x yields `ReplaceChar x`, consuming
both characters. -/
theorem parse_replace_char :
    parse_command ['r'] = (some Command.Incomplete, []) ∧
    ∀ (x : Char) (rest : List Char),
      parse_command ('r' :: x :: rest) = (some (Command.ReplaceChar x), rest) :=
  ⟨rfl, fun _ _ => rfl⟩

/-- C10: parsing an empty input returns no-match with nothing consumed,
not the `Incomplete` sentinel. -/
theorem parse_empty_input : parse_command [] = (none, []) := rfl

/-- C2: every resolved Change-combination ends with a Repaint event, and
no resolved Delete-combination contains a Repaint event. -/
theorem change_appends_repaint_delete_does_not (m : Motion) (s : Vi) :
    (∀ l, (Command.Change.to_reedline_with_motion m s).1 = some l →
       l.getLast? = some (ReedlineOption.Event ReedlineEvent.Repaint)) ∧
    (∀ l, (Command.Delete.to_reedline_with_motion m s).1 = some l →
       ReedlineOption.Event ReedlineEvent.Repaint ∉ l) := by
  obtain ⟨prev, lcs⟩ := s
  constructor
  · intro l h
    cases m <;> cases lcs <;>
      simp [Command.to_reedline_with_motion] at h <;> subst h <;> rfl
  · intro l h
    cases m <;> cases lcs <;>
      simp [Command.to_reedline_with_motion] at h <;> subst h <;> simp

/-- Witness for C2 at the concrete combinations (Change, End) and
(Delete, End) on the empty session state. -/
theorem change_appends_repaint_delete_does_not_witness :
    [ReedlineOption.Edit EditCommand.ClearToLineEnd,
     ReedlineOption.Event ReedlineEvent.Repaint].getLast?
      = some (ReedlineOption.Event ReedlineEvent.Repaint) ∧
    ReedlineOption.Event ReedlineEvent.Repaint ∉
      [ReedlineOption.Edit EditCommand.CutToLineEnd] :=
  ⟨(change_appends_repaint_delete_does_not Motion.End ⟨none, none⟩).1 _ rfl,
   (change_appends_repaint_delete_does_not Motion.End ⟨none, none⟩).2 _ rfl⟩

/-- C7: every single-character command token consumes exactly one
character and yields its command; an unrecognized leading character
yields no-match with nothing consumed. -/
theorem parse_single_char_commands :
    (∀ p ∈ single_char_table, ∀ rest : List Char,
       parse_command (p.1 :: rest) = (some p.2, rest)) ∧
    (∀ (ch : Char) (rest : List Char), ch ∉ command_trigger_chars →
       parse_command (ch :: rest) = (none, ch :: rest)) := by
  constructor
  · intro p hp rest
    fin_cases hp <;> rfl
  · intro ch rest h
    simp only [command_trigger_chars, List.mem_cons, List.not_mem_nil,
      or_false, not_or] at h
    obtain ⟨h1, h2, h3, h4, h5, h6, h7, h8, h9, h10, h11, h12, h13, h14,
      h15, h16, h17, h18⟩ := h
    simp [parse_command, h1, h2, h3, h4, h5, h6, h7, h8, h9, h10, h11,
      h12, h13, h14, h15, h16, h17, h18]

/-- Witness for C7: the token 'd' parses to Delete consuming one
character, and 'q' is rejected with nothing consumed. -/
theorem parse_single_char_commands_witness :
    parse_command ['d', 'w'] = (some Command.Delete, ['w']) ∧
    parse_command ['q'] = (none, ['q']) :=
  ⟨parse_single_char_commands.1 ('d', Command.Delete) (by decide) ['w'],
   parse_single_char_commands.2 'q' [] (by decide)⟩

/-- C3: for both Delete and Change, each character-search motion resolves
to its matching cut primitive and overwrites `last_char_search` with the
corresponding memory variant, whatever its previous value; no other
dispatch writes `last_char_search`, and it is never cleared. -/
theorem char_search_motions_write_memory (c : Char) (s : Vi) :
    ((Command.Delete.to_reedline_with_motion (Motion.RightUntil c) s).1
       = some [ReedlineOption.Edit (EditCommand.CutRightUntil c)] ∧
     ((Command.Delete.to_reedline_with_motion (Motion.RightUntil c) s).2).last_char_search
       = some (ViCharSearch.ToRight c)) ∧
    ((Command.Delete.to_reedline_with_motion (Motion.RightBefore c) s).1
       = some [ReedlineOption.Edit (EditCommand.CutRightBefore c)] ∧
     ((Command.Delete.to_reedline_with_motion (Motion.RightBefore c) s).2).last_char_search
       = some (ViCharSearch.TillRight c)) ∧
    ((Command.Delete.to_reedline_with_motion (Motion.LeftUntil c) s).1
       = some [ReedlineOption.Edit (EditCommand.CutLeftUntil c)] ∧
     ((Command.Delete.to_reedline_with_motion (Motion.LeftUntil c) s).2).last_char_search
       = some (ViCharSearch.ToLeft c)) ∧
    ((Command.Delete.to_reedline_with_motion (Motion.LeftBefore c) s).1
       = some [ReedlineOption.Edit (EditCommand.CutLeftBefore c)] ∧
     ((Command.Delete.to_reedline_with_motion (Motion.LeftBefore c) s).2).last_char_search
       = some (ViCharSearch.TillLeft c)) ∧
    ((Command.Change.to_reedline_with_motion (Motion.RightUntil c) s).1
       = some [ReedlineOption.Edit (EditCommand.CutRightUntil c),
               ReedlineOption.Event ReedlineEvent.Repaint] ∧
     ((Command.Change.to_reedline_with_motion (Motion.RightUntil c) s).2).last_char_search
       = some (ViCharSearch.ToRight c)) ∧
    ((Command.Change.to_reedline_with_motion (Motion.RightBefore c) s).1
       = some [ReedlineOption.Edit (EditCommand.CutRightBefore c),
               ReedlineOption.Event ReedlineEvent.Repaint] ∧
     ((Command.Change.to_reedline_with_motion (Motion.RightBefore c) s).2).last_char_search
       = some (ViCharSearch.TillRight c)) ∧
    ((Command.Change.to_reedline_with_motion (Motion.LeftUntil c) s).1
       = some [ReedlineOption.Edit (EditCommand.CutLeftUntil c),
               ReedlineOption.Event ReedlineEvent.Repaint] ∧
     ((Command.Change.to_reedline_with_motion (Motion.LeftUntil c) s).2).last_char_search
       = some (ViCharSearch.ToLeft c)) ∧
    ((Command.Change.to_reedline_with_motion (Motion.LeftBefore c) s).1
       = some [ReedlineOption.Edit (EditCommand.CutLeftBefore c),
               ReedlineOption.Event ReedlineEvent.Repaint] ∧
     ((Command.Change.to_reedline_with_motion (Motion.LeftBefore c) s).2).last_char_search
       = some (ViCharSearch.TillLeft c)) ∧
    (∀ (cmd : Command) (m : Motion) (t : Vi), m.is_char_search = false →
       (cmd.to_reedline_with_motion m t).2 = t) ∧
    (∀ (cmd : Command) (m : Motion) (t : Vi),
       ((cmd.to_reedline_with_motion m t).2).last_char_search = t.last_char_search ∨
       ∃ mem, ((cmd.to_reedline_with_motion m t).2).last_char_search = some mem) ∧
    (∀ (cmd : Command) (t : Vi), (cmd.to_reedline t).2 = t) ∧
    (∀ (cmd : Command) (m : Motion) (t : Vi),
       ((cmd.to_reedline_with_motion m t).2).last_char_search
         ≠ t.last_char_search →
       (cmd = Command.Delete ∨ cmd = Command.Change) ∧
         m.is_char_search = true) :=
  ⟨⟨rfl, rfl⟩, ⟨rfl, rfl⟩, ⟨rfl, rfl⟩, ⟨rfl, rfl⟩,
   ⟨rfl, rfl⟩, ⟨rfl, rfl⟩, ⟨rfl, rfl⟩, ⟨rfl, rfl⟩,
   with_motion_frame, with_motion_last_cs, to_reedline_frame,
   with_motion_only_writers⟩

/-- Witness for C3 at target character 'x', the empty session state, the
non-character-search combination (Delete, End), and the only-writers
conjunct at the observed write of (Delete, RightUntil 'x'). -/
theorem char_search_motions_write_memory_witness :
    ((Command.Delete.to_reedline_with_motion (Motion.RightUntil 'x')
        ⟨none, none⟩).2).last_char_search = some (ViCharSearch.ToRight 'x') ∧
    (Command.Delete.to_reedline_with_motion Motion.End ⟨none, none⟩).2
      = ⟨none, none⟩ ∧
    ((Command.Delete = Command.Delete ∨ Command.Delete = Command.Change) ∧
      (Motion.RightUntil 'x').is_char_search = true) :=
  ⟨(char_search_motions_write_memory 'x' ⟨none, none⟩).1.2,
   ((char_search_motions_write_memory 'x' ⟨none, none⟩).2.2.2.2.2.2.2.2.1
      Command.Delete Motion.End ⟨none, none⟩ rfl),
   ((char_search_motions_write_memory 'x' ⟨none, none⟩).2.2.2.2.2.2.2.2.2.2.2
      Command.Delete (Motion.RightUntil 'x') ⟨none, none⟩ (by decide))⟩

/-- C4: ReplayCharSearch and ReverseCharSearch never write
`last_char_search`; with no memory the combination is unsupported; with
memory `some mem` they resolve to the remembered cut primitive and its
direction-mirrored variant; in particular after (Delete, RightUntil 'x')
a replay yields cut-right-until 'x' and a reverse yields
cut-left-until 'x'. -/
theorem replay_reverse_char_search (s : Vi) :
    ((Command.Delete.to_reedline_with_motion Motion.ReplayCharSearch s).2 = s) ∧
    ((Command.Delete.to_reedline_with_motion Motion.ReverseCharSearch s).2 = s) ∧
    ((Command.Change.to_reedline_with_motion Motion.ReplayCharSearch s).2 = s) ∧
    ((Command.Change.to_reedline_with_motion Motion.ReverseCharSearch s).2 = s) ∧
    (s.last_char_search = none →
      (Command.Delete.to_reedline_with_motion Motion.ReplayCharSearch s).1 = none ∧
      (Command.Delete.to_reedline_with_motion Motion.ReverseCharSearch s).1 = none ∧
      (Command.Change.to_reedline_with_motion Motion.ReplayCharSearch s).1 = none ∧
      (Command.Change.to_reedline_with_motion Motion.ReverseCharSearch s).1 = none) ∧
    (∀ mem, s.last_char_search = some mem →
      (Command.Delete.to_reedline_with_motion Motion.ReplayCharSearch s).1
        = some [ReedlineOption.Edit mem.to_cut] ∧
      (Command.Delete.to_reedline_with_motion Motion.ReverseCharSearch s).1
        = some [ReedlineOption.Edit mem.reverse.to_cut] ∧
      (Command.Change.to_reedline_with_motion Motion.ReplayCharSearch s).1
        = some [ReedlineOption.Edit mem.to_cut,
                ReedlineOption.Event ReedlineEvent.Repaint] ∧
      (Command.Change.to_reedline_with_motion Motion.ReverseCharSearch s).1
        = some [ReedlineOption.Edit mem.reverse.to_cut,
                ReedlineOption.Event ReedlineEvent.Repaint]) ∧
    ((Command.Delete.to_reedline_with_motion Motion.ReplayCharSearch
        (Command.Delete.to_reedline_with_motion (Motion.RightUntil 'x') s).2).1
      = some [ReedlineOption.Edit (EditCommand.CutRightUntil 'x')] ∧
     (Command.Delete.to_reedline_with_motion Motion.ReverseCharSearch
        (Command.Delete.to_reedline_with_motion (Motion.RightUntil 'x') s).2).1
      = some [ReedlineOption.Edit (EditCommand.CutLeftUntil 'x')]) := by
  refine ⟨rfl, rfl, rfl, rfl, fun h => ?_, fun mem h => ?_, rfl, rfl⟩
  · exact ⟨by simp [Command.to_reedline_with_motion, h],
      by simp [Command.to_reedline_with_motion, h],
      by simp [Command.to_reedline_with_motion, h],
      by simp [Command.to_reedline_with_motion, h]⟩
  · exact ⟨by simp [Command.to_reedline_with_motion, h],
      by simp [Command.to_reedline_with_motion, h],
      by simp [Command.to_reedline_with_motion, h],
      by simp [Command.to_reedline_with_motion, h]⟩

/-- Witness for C4: replay with empty memory is unsupported, and replay
with memory TillLeft 'z' yields cut-left-before 'z'. -/
theorem replay_reverse_char_search_witness :
    (Command.Delete.to_reedline_with_motion Motion.ReplayCharSearch
       ⟨none, none⟩).1 = none ∧
    (Command.Delete.to_reedline_with_motion Motion.ReplayCharSearch
       ⟨none, some (ViCharSearch.TillLeft 'z')⟩).1
      = some [ReedlineOption.Edit (EditCommand.CutLeftBefore 'z')] :=
  ⟨((replay_reverse_char_search ⟨none, none⟩).2.2.2.2.1 rfl).1,
   ((replay_reverse_char_search ⟨none, some (ViCharSearch.TillLeft 'z')⟩
      ).2.2.2.2.2.1 (ViCharSearch.TillLeft 'z') rfl).1⟩

/-- C5: motion-combined dispatch is unsupported for every command other
than Delete and Change, and for Up and Down under both; every
unsupported outcome leaves the session state unchanged. -/
theorem unsupported_combinations_noop (cmd : Command) (m : Motion) (s : Vi) :
    (cmd ≠ Command.Delete → cmd ≠ Command.Change →
       cmd.to_reedline_with_motion m s = (none, s)) ∧
    (Command.Delete.to_reedline_with_motion Motion.Up s = (none, s)) ∧
    (Command.Delete.to_reedline_with_motion Motion.Down s = (none, s)) ∧
    (Command.Change.to_reedline_with_motion Motion.Up s = (none, s)) ∧
    (Command.Change.to_reedline_with_motion Motion.Down s = (none, s)) ∧
    ((cmd.to_reedline_with_motion m s).1 = none →
       (cmd.to_reedline_with_motion m s).2 = s) := by
  refine ⟨fun h1 h2 => ?_, rfl, rfl, rfl, rfl, fun h => ?_⟩
  · cases cmd <;> first
      | rfl
      | exact absurd rfl h1
      | exact absurd rfl h2
  · cases cmd <;> try rfl
    all_goals cases m <;> first
      | rfl
      | simp [Command.to_reedline_with_motion] at h

/-- Witness for C5: PasteAfter combined with End is unsupported, and the
unsupported (Delete, Up) outcome leaves the state unchanged. -/
theorem unsupported_combinations_noop_witness :
    Command.PasteAfter.to_reedline_with_motion Motion.End ⟨none, none⟩
      = (none, ⟨none, none⟩) ∧
    (Command.Delete.to_reedline_with_motion Motion.Up ⟨none, none⟩).2
      = ⟨none, none⟩ :=
  ⟨(unsupported_combinations_noop Command.PasteAfter Motion.End
      ⟨none, none⟩).1 (by decide) (by decide),
   (unsupported_combinations_noop Command.Delete Motion.Up
      ⟨none, none⟩).2.2.2.2.2 rfl⟩

/-- C8: standalone RepeatLastAction dispatch yields the empty list when
`previous` is none and exactly one event instruction carrying e when
`previous` is some e, in both cases leaving the state unchanged. -/
theorem repeat_last_action_dispatch (s : Vi) :
    (s.previous = none → Command.RepeatLastAction.to_reedline s = ([], s)) ∧
    (∀ e, s.previous = some e →
       Command.RepeatLastAction.to_reedline s
         = ([ReedlineOption.Event e], s)) := by
  obtain ⟨prev, lcs⟩ := s
  constructor
  · intro h
    simp only at h
    subst h
    rfl
  · intro e h
    simp only at h
    subst h
    rfl

/-- Witness for C8 with `previous` empty and with a concrete remembered
event. -/
theorem repeat_last_action_dispatch_witness :
    Command.RepeatLastAction.to_reedline ⟨none, none⟩ = ([], ⟨none, none⟩) ∧
    Command.RepeatLastAction.to_reedline ⟨some (ReedlineEvent.Other 7), none⟩
      = ([ReedlineOption.Event (ReedlineEvent.Other 7)],
         ⟨some (ReedlineEvent.Other 7), none⟩) :=
  ⟨(repeat_last_action_dispatch ⟨none, none⟩).1 rfl,
   (repeat_last_action_dispatch ⟨some (ReedlineEvent.Other 7), none⟩).2
      (ReedlineEvent.Other 7) rfl⟩

/-- C9: standalone dispatch never mutates the session state, and its
instruction list depends on the state only through `previous`. -/
theorem standalone_dispatch_pure (cmd : Command) (s t : Vi) :
    (cmd.to_reedline s).2 = s ∧
    (s.previous = t.previous →
       (cmd.to_reedline s).1 = (cmd.to_reedline t).1) := by
  constructor
  · exact to_reedline_frame cmd s
  · intro h
    cases cmd <;> try rfl
    simp only [Command.to_reedline, h]
    cases t.previous <;> rfl

/-- Witness for C9 at RepeatLastAction on two states sharing `previous`
but differing in `last_char_search`. -/
theorem standalone_dispatch_pure_witness :
    (Command.RepeatLastAction.to_reedline
        ⟨some ReedlineEvent.Repaint, none⟩).2
      = ⟨some ReedlineEvent.Repaint, none⟩ ∧
    (Command.RepeatLastAction.to_reedline
        ⟨some ReedlineEvent.Repaint, none⟩).1
      = (Command.RepeatLastAction.to_reedline
          ⟨some ReedlineEvent.Repaint, some (ViCharSearch.ToRight 'a')⟩).1 :=
  ⟨(standalone_dispatch_pure Command.RepeatLastAction
      ⟨some ReedlineEvent.Repaint, none⟩
      ⟨some ReedlineEvent.Repaint, some (ViCharSearch.ToRight 'a')⟩).1,
   (standalone_dispatch_pure Command.RepeatLastAction
      ⟨some ReedlineEvent.Repaint, none⟩
      ⟨some ReedlineEvent.Repaint, some (ViCharSearch.ToRight 'a')⟩).2 rfl⟩
